import Mathlib

/-!
Shallow embedding of DeathStarBench hotelReservation/tracing/interceptors.go.

The file defines the data model (contexts carrying an optional OpenTracing
span, Go interface values that may or may not be proto messages, an explicit
event list recording span-tag writes and log emissions), the two interceptor
chain builders (ChainUnaryServerInterceptors, ChainUnaryClientInterceptors)
translated faithfully from the Go downward index loop as a fold over the
reversed interceptor list, and the two size-tagging interceptors.  Handlers,
invokers and interceptors are effectful: they return the list of events
they emit alongside their Go results.  The client invoker's reply
out-parameter is modelled by the invoker returning the updated reply value,
which the interceptor then inspects, matching Go where the invoker fills the
reply struct in place.
-/

namespace Tracing

/-- A span identifier; spans are opaque handles owned by the tracing library,
so only an identity is needed to record which span a tag was written to. -/
abbrev Span := String

/-- Call context: carries the optionally-present active span
(opentracing.SpanFromContext) plus opaque extra data standing for
deadlines/values the module never touches. -/
structure Context where
  span : Option Span
  extra : Nat
  deriving DecidableEq

/-- A Go interface value as seen by the interceptors: either a value whose
dynamic type satisfies proto.Message (carrying its serialized size and an
identity), a value of some other dynamic type, or the nil interface value.
The type assertion req.(proto.Message) succeeds exactly on protoMsg. -/
inductive GoValue where
  | protoMsg (size : Nat) (ident : Nat)
  | nonProto (ident : Nat)
  | nil
  deriving DecidableEq

/-- Whether the dynamic type assertion to proto.Message succeeds. -/
def isProtoMessage : GoValue → Bool
  | .protoMsg _ _ => true
  | _ => false

/-- A span-tag value: proto.Size yields an int tag, the client sentinel is a
string tag. -/
inductive TagValue where
  | int (n : Int)
  | str (s : String)
  deriving DecidableEq

/-- Observable side effects of the module: span.SetTag writes and
zerolog info/warning emissions. -/
inductive Event where
  | setTag (span : Span) (key : String) (value : TagValue)
  | logInfo (msg : String)
  | logWarn (msg : String)
  deriving DecidableEq

/-- grpc.UnaryServerInfo: the call metadata handed to server interceptors. -/
structure UnaryServerInfo where
  fullMethod : String
  deriving DecidableEq

/-- A Go error value (nil is modelled by Option.none). -/
abbrev GoError := String

/-- Result of a server handler: emitted events, the response interface value,
and the error. -/
abbrev HandlerResult := List Event × GoValue × Option GoError

/-- grpc.UnaryHandler. -/
abbrev UnaryHandler := Context → GoValue → HandlerResult

/-- grpc.UnaryServerInterceptor: receives context, request, call info and the
next-stage handler. -/
abbrev UnaryServerInterceptor :=
  Context → GoValue → UnaryServerInfo → UnaryHandler → HandlerResult

/-- grpc.ClientConn: a live connection handle, identified by its target. -/
structure ClientConn where
  target : String
  deriving DecidableEq

/-- grpc.CallOption: opaque, identified by an id. -/
structure CallOption where
  ident : Nat
  deriving DecidableEq

/-- Result of a client invoke: emitted events, the updated reply slot value,
and the error (Go returns only the error and fills the reply in place). -/
abbrev InvokeResult := List Event × GoValue × Option GoError

/-- grpc.UnaryInvoker: context, method name, request, reply slot, connection,
call options. -/
abbrev UnaryInvoker :=
  Context → String → GoValue → GoValue → ClientConn → List CallOption → InvokeResult

/-- grpc.UnaryClientInterceptor. -/
abbrev UnaryClientInterceptor :=
  Context → String → GoValue → GoValue → ClientConn → UnaryInvoker →
    List CallOption → InvokeResult

/-- ChainUnaryServerInterceptors (interceptors.go lines 13-31).  The Go body
starts from chainedHandler := handler and iterates i from len-1 down to 0,
each iteration binding its own interceptor := interceptors[i] and
next := chainedHandler and replacing chainedHandler with a closure invoking
interceptor(ctx, req, info, next); that downward loop is exactly a left fold
over the reversed list. -/
def ChainUnaryServerInterceptors
    (interceptors : List UnaryServerInterceptor) : UnaryServerInterceptor :=
  fun ctx req info handler =>
    let chainedHandler :=
      interceptors.reverse.foldl
        (fun next interceptor => fun ctx req => interceptor ctx req info next)
        handler
    chainedHandler ctx req

/-- Onion nesting of server interceptors, written the way the specification
describes the composed chain: the interceptor at index 0 is outermost and
each interceptor's continuation is the nesting of the remaining interceptors,
terminating in the supplied handler. -/
def nestServerHandlers (info : UnaryServerInfo) :
    List UnaryServerInterceptor → UnaryHandler → UnaryHandler
  | [], handler => handler
  | interceptor :: rest, handler =>
      fun ctx req => interceptor ctx req info (nestServerHandlers info rest handler)

/-- ChainUnaryClientInterceptors (interceptors.go lines 68-87), same downward
loop over the interceptor list, wrapping the invoker. -/
def ChainUnaryClientInterceptors
    (interceptors : List UnaryClientInterceptor) : UnaryClientInterceptor :=
  fun ctx method req reply cc invoker opts =>
    let chainedInvoker :=
      interceptors.reverse.foldl
        (fun next interceptor =>
          fun ctx method req reply cc opts =>
            interceptor ctx method req reply cc next opts)
        invoker
    chainedInvoker ctx method req reply cc opts

/-- Onion nesting of client interceptors, written the way the specification
describes the composed chain. -/
def nestClientInvokers :
    List UnaryClientInterceptor → UnaryInvoker → UnaryInvoker
  | [], invoker => invoker
  | interceptor :: rest, invoker =>
      fun ctx method req reply cc opts =>
        interceptor ctx method req reply cc (nestClientInvokers rest invoker) opts

/-- opentracing.SpanFromContext. -/
def spanFromContext (ctx : Context) : Option Span := ctx.span

/-- Events emitted by the request-size branch of the server interceptor
(interceptors.go lines 42-49): on a proto.Message, SetTag with the size then
an info log; otherwise a warning log then SetTag with the int sentinel -1. -/
def serverRequestTagEvents (sp : Span) (req : GoValue)
    (info : UnaryServerInfo) : List Event :=
  match req with
  | .protoMsg sz _ =>
      [Event.setTag sp "grpc.request.size" (TagValue.int sz),
       Event.logInfo ("Request size for " ++ info.fullMethod ++ ": " ++
         toString sz ++ " bytes")]
  | _ =>
      [Event.logWarn ("Request for method " ++ info.fullMethod ++
         " is not a proto.Message"),
       Event.setTag sp "grpc.request.size" (TagValue.int (-1))]

/-- Events emitted by the response-size branch of the server interceptor
(interceptors.go lines 54-61). -/
def serverResponseTagEvents (sp : Span) (resp : GoValue)
    (info : UnaryServerInfo) : List Event :=
  match resp with
  | .protoMsg sz _ =>
      [Event.setTag sp "grpc.response.size" (TagValue.int sz),
       Event.logInfo ("Response size for " ++ info.fullMethod ++ ": " ++
         toString sz ++ " bytes")]
  | _ =>
      [Event.logWarn ("Response for method " ++ info.fullMethod ++
         " is not a proto.Message"),
       Event.setTag sp "grpc.response.size" (TagValue.int (-1))]

/-- The response-side guard of the server interceptor (lines 52-63): response
tagging happens only when err == nil. -/
def serverPostEvents (sp : Span) (resp : GoValue) (err : Option GoError)
    (info : UnaryServerInfo) : List Event :=
  match err with
  | some _ => []
  | none => serverResponseTagEvents sp resp info

/-- SizeTaggingUnaryServerInterceptor (interceptors.go lines 34-65). -/
def SizeTaggingUnaryServerInterceptor : UnaryServerInterceptor :=
  fun ctx req info handler =>
    let preEvents :=
      match spanFromContext ctx with
      | none => []
      | some sp => serverRequestTagEvents sp req info
    let (handlerEvents, resp, err) := handler ctx req
    let postEvents :=
      match spanFromContext ctx with
      | none => []
      | some sp => serverPostEvents sp resp err info
    (preEvents ++ handlerEvents ++ postEvents, resp, err)

/-- Events emitted by the request-size branch of the client interceptor
(interceptors.go lines 100-107): the non-proto sentinel is the string
value "unknown". -/
def clientRequestTagEvents (sp : Span) (req : GoValue)
    (method : String) : List Event :=
  match req with
  | .protoMsg sz _ =>
      [Event.setTag sp "grpc.request.size" (TagValue.int sz),
       Event.logInfo ("Request size for " ++ method ++ ": " ++
         toString sz ++ " bytes")]
  | _ =>
      [Event.logWarn ("Request for method " ++ method ++
         " is not a proto.Message"),
       Event.setTag sp "grpc.request.size" (TagValue.str "unknown")]

/-- Events emitted by the response-size branch of the client interceptor
(interceptors.go lines 112-119). -/
def clientResponseTagEvents (sp : Span) (reply : GoValue)
    (method : String) : List Event :=
  match reply with
  | .protoMsg sz _ =>
      [Event.setTag sp "grpc.response.size" (TagValue.int sz),
       Event.logInfo ("Response size for " ++ method ++ ": " ++
         toString sz ++ " bytes")]
  | _ =>
      [Event.logWarn ("Response for method " ++ method ++
         " is not a proto.Message"),
       Event.setTag sp "grpc.response.size" (TagValue.str "unknown")]

/-- The response-side guard of the client interceptor (lines 110-121). -/
def clientPostEvents (sp : Span) (reply : GoValue) (err : Option GoError)
    (method : String) : List Event :=
  match err with
  | some _ => []
  | none => clientResponseTagEvents sp reply method

/-- SizeTaggingUnaryClientInterceptor (interceptors.go lines 90-123). -/
def SizeTaggingUnaryClientInterceptor : UnaryClientInterceptor :=
  fun ctx method req reply cc invoker opts =>
    let preEvents :=
      match spanFromContext ctx with
      | none => []
      | some sp => clientRequestTagEvents sp req method
    let (invokerEvents, reply', err) := invoker ctx method req reply cc opts
    let postEvents :=
      match spanFromContext ctx with
      | none => []
      | some sp => clientPostEvents sp reply' err method
    (preEvents ++ invokerEvents ++ postEvents, reply', err)

/-- The tag value the server interceptor writes for a request payload:
the computed size when the payload is a proto.Message, the int sentinel -1
otherwise. -/
def serverRequestSizeTagValue (req : GoValue) : TagValue :=
  match req with
  | .protoMsg sz _ => TagValue.int sz
  | _ => TagValue.int (-1)

/-- The tag value the client interceptor writes for a request payload:
the computed size when the payload is a proto.Message, the string sentinel
"unknown" otherwise. -/
def clientRequestSizeTagValue (req : GoValue) : TagValue :=
  match req with
  | .protoMsg sz _ => TagValue.int sz
  | _ => TagValue.str "unknown"

/- ------------------------------------------------------------------ -/
/- Instrumentation interceptors and concrete sample values, used to
   observe execution order, metadata delivery and argument forwarding
   through the chain. -/
/- ------------------------------------------------------------------ -/

/-- A test interceptor that logs an entry event, runs its continuation on the
unchanged context and request, and logs an exit event. -/
def loggingServerInterceptor (name : String) : UnaryServerInterceptor :=
  fun ctx req _ next =>
    (Event.logInfo (name ++ ":before") ::
       ((next ctx req).1 ++ [Event.logInfo (name ++ ":after")]),
     (next ctx req).2)

/-- A test interceptor that records the call metadata it receives and then
runs its continuation unchanged. -/
def infoRecordingServerInterceptor : UnaryServerInterceptor :=
  fun ctx req info next =>
    (Event.logInfo info.fullMethod :: (next ctx req).1, (next ctx req).2)

/-- A test client interceptor that records the method, connection target and
call options it receives and then runs its continuation unchanged. -/
def metadataRecordingClientInterceptor : UnaryClientInterceptor :=
  fun ctx method req reply cc next opts =>
    (Event.logInfo (method ++ "|" ++ cc.target ++ "|" ++
        toString (opts.map (fun o => o.ident))) ::
       (next ctx method req reply cc opts).1,
     (next ctx method req reply cc opts).2)

/-- A test interceptor that invokes its continuation with a modified context
and request. -/
def visitServer (f : Context → Context) (g : GoValue → GoValue) :
    UnaryServerInterceptor :=
  fun ctx req _ next => next (f ctx) (g req)

/-- A test client interceptor that invokes its continuation with a modified
context and request. -/
def visitClient (f : Context → Context) (g : GoValue → GoValue) :
    UnaryClientInterceptor :=
  fun ctx method req reply cc next opts =>
    next (f ctx) method (g req) reply cc opts

/-- A server interceptor that short-circuits: it returns without invoking its
continuation. -/
def scServer : UnaryServerInterceptor :=
  fun _ _ _ _ => ([Event.logInfo "short"], GoValue.nil, none)

/-- A client interceptor that short-circuits: it returns without invoking its
continuation. -/
def scClient : UnaryClientInterceptor :=
  fun _ _ _ reply _ _ _ => ([Event.logInfo "short"], reply, none)

/-- A context carrying an active span. -/
def ctxSpan : Context := { span := some "s0", extra := 7 }

/-- A context with no active span. -/
def ctxNoSpan : Context := { span := none, extra := 7 }

/-- Sample call info. -/
def infoSample : UnaryServerInfo := { fullMethod := "/hotel.Search/Nearby" }

/-- Sample connection handle. -/
def ccSample : ClientConn := { target := "localhost:8080" }

/-- A proto.Message request of serialized size 42. -/
def reqMsg : GoValue := GoValue.protoMsg 42 0

/-- A proto.Message response of serialized size 17. -/
def respMsg : GoValue := GoValue.protoMsg 17 1

/-- A handler that emits one event and succeeds with respMsg. -/
def handlerOk : UnaryHandler := fun _ _ => ([Event.logInfo "H"], respMsg, none)

/-- A handler that fails with an error. -/
def handlerBoom : UnaryHandler := fun _ _ => ([], GoValue.nil, some "boom")

/-- A handler that succeeds with a nil response value. -/
def handlerNilOk : UnaryHandler := fun _ _ => ([], GoValue.nil, none)

/-- An invoker that succeeds, leaving respMsg in the reply slot. -/
def invokerOk : UnaryInvoker := fun _ _ _ _ _ _ => ([], respMsg, none)

/-- An invoker that fails with an error. -/
def invokerBoom : UnaryInvoker := fun _ _ _ _ _ _ => ([], GoValue.nil, some "boom")

/-- An invoker that succeeds, leaving a non-proto value in the reply slot. -/
def invokerNonProtoOk : UnaryInvoker :=
  fun _ _ _ _ _ _ => ([], GoValue.nonProto 3, none)

/- ------------------------------------------------------------------ -/
/- Helper lemmas -/
/- ------------------------------------------------------------------ -/

theorem nestServer_eq_foldr (info : UnaryServerInfo)
    (l : List UnaryServerInterceptor) (handler : UnaryHandler) :
    nestServerHandlers info l handler =
      l.foldr (fun interceptor next => fun ctx req => interceptor ctx req info next)
        handler := by
  induction l with
  | nil => rfl
  | cons i rest ih =>
      funext ctx req
      simp only [nestServerHandlers, List.foldr_cons, ih]

theorem chainServer_eq_nest (l : List UnaryServerInterceptor)
    (ctx : Context) (req : GoValue) (info : UnaryServerInfo)
    (handler : UnaryHandler) :
    ChainUnaryServerInterceptors l ctx req info handler =
      nestServerHandlers info l handler ctx req := by
  unfold ChainUnaryServerInterceptors
  rw [List.foldl_reverse, nestServer_eq_foldr]

theorem nestClient_eq_foldr (l : List UnaryClientInterceptor)
    (invoker : UnaryInvoker) :
    nestClientInvokers l invoker =
      l.foldr
        (fun interceptor next =>
          fun ctx method req reply cc opts =>
            interceptor ctx method req reply cc next opts)
        invoker := by
  induction l with
  | nil => rfl
  | cons i rest ih =>
      funext ctx method req reply cc opts
      simp only [nestClientInvokers, List.foldr_cons, ih]

theorem chainClient_eq_nest (l : List UnaryClientInterceptor)
    (ctx : Context) (method : String) (req reply : GoValue)
    (cc : ClientConn) (invoker : UnaryInvoker) (opts : List CallOption) :
    ChainUnaryClientInterceptors l ctx method req reply cc invoker opts =
      nestClientInvokers l invoker ctx method req reply cc opts := by
  unfold ChainUnaryClientInterceptors
  rw [List.foldl_reverse, nestClient_eq_foldr]

theorem serverSizeTagging_span_some (ctx : Context) (sp : Span)
    (req : GoValue) (info : UnaryServerInfo) (handler : UnaryHandler)
    (hev : List Event) (resp : GoValue) (err : Option GoError)
    (hspan : spanFromContext ctx = some sp)
    (hh : handler ctx req = (hev, resp, err)) :
    SizeTaggingUnaryServerInterceptor ctx req info handler =
      (serverRequestTagEvents sp req info ++ hev ++
        serverPostEvents sp resp err info, resp, err) := by
  unfold SizeTaggingUnaryServerInterceptor
  rw [hspan, hh]

theorem serverSizeTagging_span_none (ctx : Context)
    (req : GoValue) (info : UnaryServerInfo) (handler : UnaryHandler)
    (hspan : spanFromContext ctx = none) :
    SizeTaggingUnaryServerInterceptor ctx req info handler = handler ctx req := by
  unfold SizeTaggingUnaryServerInterceptor
  rw [hspan]
  obtain ⟨hev, resp, err⟩ := handler ctx req
  simp

theorem clientSizeTagging_span_some (ctx : Context) (sp : Span)
    (method : String) (req reply : GoValue) (cc : ClientConn)
    (invoker : UnaryInvoker) (opts : List CallOption)
    (iev : List Event) (reply' : GoValue) (err : Option GoError)
    (hspan : spanFromContext ctx = some sp)
    (hi : invoker ctx method req reply cc opts = (iev, reply', err)) :
    SizeTaggingUnaryClientInterceptor ctx method req reply cc invoker opts =
      (clientRequestTagEvents sp req method ++ iev ++
        clientPostEvents sp reply' err method, reply', err) := by
  unfold SizeTaggingUnaryClientInterceptor
  rw [hspan, hi]

theorem clientSizeTagging_span_none (ctx : Context)
    (method : String) (req reply : GoValue) (cc : ClientConn)
    (invoker : UnaryInvoker) (opts : List CallOption)
    (hspan : spanFromContext ctx = none) :
    SizeTaggingUnaryClientInterceptor ctx method req reply cc invoker opts =
      invoker ctx method req reply cc opts := by
  unfold SizeTaggingUnaryClientInterceptor
  rw [hspan]
  obtain ⟨iev, reply', err⟩ := invoker ctx method req reply cc opts
  simp

theorem nestServer_replicate_record (info : UnaryServerInfo)
    (handler : UnaryHandler) (m : Nat) (ctx : Context) (req : GoValue) :
    nestServerHandlers info (List.replicate m infoRecordingServerInterceptor)
        handler ctx req
      = (List.replicate m (Event.logInfo info.fullMethod) ++ (handler ctx req).1,
         (handler ctx req).2) := by
  induction m with
  | zero => simp [nestServerHandlers]
  | succ k ih =>
      simp [List.replicate_succ, nestServerHandlers,
        infoRecordingServerInterceptor, ih]

theorem nestClient_replicate_record (invoker : UnaryInvoker) (m : Nat)
    (ctx : Context) (method : String) (req reply : GoValue)
    (cc : ClientConn) (opts : List CallOption) :
    nestClientInvokers (List.replicate m metadataRecordingClientInterceptor)
        invoker ctx method req reply cc opts
      = (List.replicate m
           (Event.logInfo (method ++ "|" ++ cc.target ++ "|" ++
             toString (opts.map (fun o => o.ident)))) ++
           (invoker ctx method req reply cc opts).1,
         (invoker ctx method req reply cc opts).2) := by
  induction m with
  | zero => simp [nestClientInvokers]
  | succ k ih =>
      simp [List.replicate_succ, nestClientInvokers,
        metadataRecordingClientInterceptor, ih]

/-- C1: for every chain of at least one interceptor, the composed interceptor
built by ChainUnaryServerInterceptors (resp. ChainUnaryClientInterceptors)
executes the interceptor at index 0 as the outermost layer, its continuation
being the onion nesting of the remaining interceptors terminating in the
supplied handler (resp. invoker); each layer's continuation is the wrap of
the next-indexed interceptor.  On a concrete chain of three logging
interceptors the observed event order is A-before, B-before, C-before,
handler, C-after, B-after, A-after, so no layer refers to another
iteration's interceptor or continuation. -/
theorem chain_index_zero_outermost
    (i0 : UnaryServerInterceptor) (rest : List UnaryServerInterceptor)
    (ctx : Context) (req : GoValue) (info : UnaryServerInfo)
    (handler : UnaryHandler)
    (j0 : UnaryClientInterceptor) (crest : List UnaryClientInterceptor)
    (cctx : Context) (method : String) (creq reply : GoValue) (cc : ClientConn)
    (invoker : UnaryInvoker) (opts : List CallOption) :
    ChainUnaryServerInterceptors (i0 :: rest) ctx req info handler
      = i0 ctx req info (nestServerHandlers info rest handler)
    ∧ ChainUnaryClientInterceptors (j0 :: crest) cctx method creq reply cc
        invoker opts
      = j0 cctx method creq reply cc (nestClientInvokers crest invoker) opts
    ∧ (ChainUnaryServerInterceptors
        [loggingServerInterceptor "A", loggingServerInterceptor "B",
         loggingServerInterceptor "C"]
        ctxSpan GoValue.nil infoSample
        (fun _ _ => ([Event.logInfo "H"], GoValue.nil, none))).1
      = [Event.logInfo "A:before", Event.logInfo "B:before",
         Event.logInfo "C:before", Event.logInfo "H",
         Event.logInfo "C:after", Event.logInfo "B:after",
         Event.logInfo "A:after"] := by
  refine ⟨?_, ?_, ?_⟩
  · rw [chainServer_eq_nest]; simp [nestServerHandlers]
  · rw [chainClient_eq_nest]; simp [nestClientInvokers]
  · decide

/-- C4: composing the empty sequence of interceptors yields a composed
interceptor that, for every context, request, call info and handler
(resp. method, reply slot, connection, options and invoker), returns exactly
what the terminal handler (resp. invoker) returns. -/
theorem chain_empty_identity
    (ctx : Context) (req : GoValue) (info : UnaryServerInfo)
    (handler : UnaryHandler)
    (cctx : Context) (method : String) (creq reply : GoValue) (cc : ClientConn)
    (invoker : UnaryInvoker) (opts : List CallOption) :
    ChainUnaryServerInterceptors [] ctx req info handler = handler ctx req
    ∧ ChainUnaryClientInterceptors [] cctx method creq reply cc invoker opts
        = invoker cctx method creq reply cc opts :=
  ⟨rfl, rfl⟩

/-- C5: if an interceptor k (resp. kc) returns without invoking its
continuation — formally, its result does not depend on the continuation it is
given — then the composed chain's result is unchanged when the interceptors
after k and the terminal handler (resp. invoker) are replaced by arbitrary
other ones, so none of them can execute; and the layer at k returns exactly
the value k produced, regardless of the continuation the builder supplied. -/
theorem chain_short_circuit
    (info : UnaryServerInfo) (k : UnaryServerInterceptor)
    (hk : ∀ ctx req next next', k ctx req info next = k ctx req info next')
    (kc : UnaryClientInterceptor)
    (hkc : ∀ ctx method req reply cc opts next next',
      kc ctx method req reply cc next opts = kc ctx method req reply cc next' opts) :
    (∀ pre post post' handler handler' ctx req,
      ChainUnaryServerInterceptors (pre ++ k :: post) ctx req info handler
        = ChainUnaryServerInterceptors (pre ++ k :: post') ctx req info handler')
    ∧ (∀ post handler handler' ctx req,
      ChainUnaryServerInterceptors (k :: post) ctx req info handler
        = k ctx req info handler')
    ∧ (∀ pre post post' invoker invoker' ctx method req reply cc opts,
      ChainUnaryClientInterceptors (pre ++ kc :: post) ctx method req reply cc
          invoker opts
        = ChainUnaryClientInterceptors (pre ++ kc :: post') ctx method req reply cc
            invoker' opts)
    ∧ (∀ post invoker invoker' ctx method req reply cc opts,
      ChainUnaryClientInterceptors (kc :: post) ctx method req reply cc invoker opts
        = kc ctx method req reply cc invoker' opts) := by
  have hs : ∀ pre post post' handler handler',
      nestServerHandlers info (pre ++ k :: post) handler
        = nestServerHandlers info (pre ++ k :: post') handler' := by
    intro pre post post' handler handler'
    induction pre with
    | nil =>
        funext ctx req
        simp only [List.nil_append, nestServerHandlers]
        exact hk ctx req _ _
    | cons p rest ih =>
        funext ctx req
        simp only [List.cons_append, nestServerHandlers, List.append_eq]
        rw [ih]
  have hc : ∀ pre post post' invoker invoker',
      nestClientInvokers (pre ++ kc :: post) invoker
        = nestClientInvokers (pre ++ kc :: post') invoker' := by
    intro pre post post' invoker invoker'
    induction pre with
    | nil =>
        funext ctx method req reply cc opts
        simp only [List.nil_append, nestClientInvokers]
        exact hkc ctx method req reply cc opts _ _
    | cons p rest ih =>
        funext ctx method req reply cc opts
        simp only [List.cons_append, nestClientInvokers, List.append_eq]
        rw [ih]
  refine ⟨?_, ?_, ?_, ?_⟩
  · intro pre post post' handler handler' ctx req
    rw [chainServer_eq_nest, chainServer_eq_nest, hs pre post post' handler handler']
  · intro post handler handler' ctx req
    rw [chainServer_eq_nest]
    simp only [nestServerHandlers]
    exact hk ctx req _ _
  · intro pre post post' invoker invoker' ctx method req reply cc opts
    rw [chainClient_eq_nest, chainClient_eq_nest, hc pre post post' invoker invoker']
  · intro post invoker invoker' ctx method req reply cc opts
    rw [chainClient_eq_nest]
    simp only [nestClientInvokers]
    exact hkc ctx method req reply cc opts _ _

/-- Witness for C5: the concrete interceptor scServer ignores its
continuation, and chaining it in front of a logging interceptor returns
exactly scServer's own value, with the logging interceptor and the terminal
handler replaced by arbitrary ones without effect. -/
theorem chain_short_circuit_witness :
    scServer ctxSpan GoValue.nil infoSample handlerNilOk
      = scServer ctxSpan GoValue.nil infoSample handlerBoom
    ∧ ChainUnaryServerInterceptors [scServer, loggingServerInterceptor "X"]
        ctxSpan GoValue.nil infoSample handlerNilOk
      = scServer ctxSpan GoValue.nil infoSample handlerBoom
    ∧ ChainUnaryClientInterceptors [scClient, metadataRecordingClientInterceptor]
        ctxSpan "m" reqMsg GoValue.nil ccSample invokerOk []
      = scClient ctxSpan "m" reqMsg GoValue.nil ccSample invokerBoom [] :=
  ⟨rfl,
   (chain_short_circuit infoSample scServer (fun _ _ _ _ => rfl) scClient
      (fun _ _ _ _ _ _ _ _ => rfl)).2.1
     [loggingServerInterceptor "X"] handlerNilOk handlerBoom ctxSpan GoValue.nil,
   (chain_short_circuit infoSample scServer (fun _ _ _ _ => rfl) scClient
      (fun _ _ _ _ _ _ _ _ => rfl)).2.2.2
     [metadataRecordingClientInterceptor] invokerOk invokerBoom
     ctxSpan "m" reqMsg GoValue.nil ccSample []⟩

/-- C8: every layer of a composed chain receives exactly the call metadata
passed to the composed interceptor.  A chain of n metadata-recording
interceptors records the outer UnaryServerInfo value n times (server), and
the outer method name, connection target and call-option list n times
(client): the chain never substitutes this metadata between layers. -/
theorem chain_preserves_call_metadata (n : Nat)
    (ctx : Context) (req : GoValue) (info : UnaryServerInfo)
    (handler : UnaryHandler)
    (cctx : Context) (method : String) (creq reply : GoValue) (cc : ClientConn)
    (invoker : UnaryInvoker) (opts : List CallOption) :
    ChainUnaryServerInterceptors (List.replicate n infoRecordingServerInterceptor)
        ctx req info handler
      = (List.replicate n (Event.logInfo info.fullMethod) ++ (handler ctx req).1,
         (handler ctx req).2)
    ∧ ChainUnaryClientInterceptors
        (List.replicate n metadataRecordingClientInterceptor)
        cctx method creq reply cc invoker opts
      = (List.replicate n
           (Event.logInfo (method ++ "|" ++ cc.target ++ "|" ++
             toString (opts.map (fun o => o.ident)))) ++
           (invoker cctx method creq reply cc opts).1,
         (invoker cctx method creq reply cc opts).2) := by
  constructor
  · rw [chainServer_eq_nest, nestServer_replicate_record]
  · rw [chainClient_eq_nest, nestClient_replicate_record]

/-- C10: each wrapper closure forwards to its interceptor the context and
request received from the enclosing layer's continuation call.  If the
outermost interceptor invokes its continuation with a modified context f ctx
and request g req, the rest of the chain and the terminal handler run exactly
as a chain invoked at the modified values — while the server chain still
hands every layer the outermost captured call info. -/
theorem chain_forwards_modified_arguments
    (f : Context → Context) (g : GoValue → GoValue)
    (rest : List UnaryServerInterceptor)
    (ctx : Context) (req : GoValue) (info : UnaryServerInfo)
    (handler : UnaryHandler)
    (crest : List UnaryClientInterceptor)
    (cctx : Context) (method : String) (creq reply : GoValue) (cc : ClientConn)
    (invoker : UnaryInvoker) (opts : List CallOption) :
    ChainUnaryServerInterceptors (visitServer f g :: rest) ctx req info handler
      = ChainUnaryServerInterceptors rest (f ctx) (g req) info handler
    ∧ ChainUnaryClientInterceptors (visitClient f g :: crest)
        cctx method creq reply cc invoker opts
      = ChainUnaryClientInterceptors crest (f cctx) method (g creq) reply cc
          invoker opts := by
  constructor
  · rw [chainServer_eq_nest, chainServer_eq_nest]
    simp [nestServerHandlers, visitServer]
  · rw [chainClient_eq_nest, chainClient_eq_nest]
    simp [nestClientInvokers, visitClient]

/-- C2: with a span present and the handler (resp. invoker) returning a
non-nil error, the size-tagging interceptor adds exactly the request-size
events (which contain the grpc.request.size tag — numeric for a proto
message, sentinel otherwise — and no tag with any other key, in particular
no grpc.response.size tag), and returns the handler's (resp. invoker's)
response and error unchanged. -/
theorem size_tagging_error_skips_response_tag
    (ctx : Context) (sp : Span) (hspan : spanFromContext ctx = some sp)
    (req : GoValue) (info : UnaryServerInfo) (handler : UnaryHandler)
    (hev : List Event) (resp : GoValue) (e : GoError)
    (hh : handler ctx req = (hev, resp, some e))
    (method : String) (reply : GoValue) (cc : ClientConn)
    (invoker : UnaryInvoker) (opts : List CallOption)
    (iev : List Event) (reply' : GoValue) (e2 : GoError)
    (hi : invoker ctx method req reply cc opts = (iev, reply', some e2)) :
    SizeTaggingUnaryServerInterceptor ctx req info handler
        = (serverRequestTagEvents sp req info ++ hev, resp, some e)
    ∧ Event.setTag sp "grpc.request.size" (serverRequestSizeTagValue req)
        ∈ serverRequestTagEvents sp req info
    ∧ (∀ s key v, Event.setTag s key v ∈ serverRequestTagEvents sp req info →
        key = "grpc.request.size")
    ∧ SizeTaggingUnaryClientInterceptor ctx method req reply cc invoker opts
        = (clientRequestTagEvents sp req method ++ iev, reply', some e2)
    ∧ Event.setTag sp "grpc.request.size" (clientRequestSizeTagValue req)
        ∈ clientRequestTagEvents sp req method
    ∧ (∀ s key v, Event.setTag s key v ∈ clientRequestTagEvents sp req method →
        key = "grpc.request.size") := by
  refine ⟨?_, ?_, ?_, ?_, ?_, ?_⟩
  · rw [serverSizeTagging_span_some ctx sp req info handler hev resp (some e) hspan hh]
    simp [serverPostEvents]
  · cases req <;> simp [serverRequestTagEvents, serverRequestSizeTagValue]
  · intro s key v hmem
    cases req <;> simp [serverRequestTagEvents] at hmem <;> exact hmem.2.1
  · rw [clientSizeTagging_span_some ctx sp method req reply cc invoker opts iev
      reply' (some e2) hspan hi]
    simp [clientPostEvents]
  · cases req <;> simp [clientRequestTagEvents, clientRequestSizeTagValue]
  · intro s key v hmem
    cases req <;> simp [clientRequestTagEvents] at hmem <;> exact hmem.2.1

/-- Witness for C2: a span-carrying context and failing handler/invoker at
concrete inputs; the interceptors add only the request-size events and
forward the error "boom" unchanged. -/
theorem size_tagging_error_skips_response_tag_witness :
    spanFromContext ctxSpan = some "s0"
    ∧ handlerBoom ctxSpan reqMsg = ([], GoValue.nil, some "boom")
    ∧ invokerBoom ctxSpan "m" reqMsg GoValue.nil ccSample []
        = ([], GoValue.nil, some "boom")
    ∧ SizeTaggingUnaryServerInterceptor ctxSpan reqMsg infoSample handlerBoom
        = (serverRequestTagEvents "s0" reqMsg infoSample ++ [], GoValue.nil,
           some "boom")
    ∧ SizeTaggingUnaryClientInterceptor ctxSpan "m" reqMsg GoValue.nil ccSample
        invokerBoom []
        = (clientRequestTagEvents "s0" reqMsg "m" ++ [], GoValue.nil,
           some "boom") :=
  ⟨rfl, rfl, rfl,
   (size_tagging_error_skips_response_tag ctxSpan "s0" rfl reqMsg infoSample
      handlerBoom [] GoValue.nil "boom" rfl "m" GoValue.nil ccSample invokerBoom
      [] [] GoValue.nil "boom" rfl).1,
   (size_tagging_error_skips_response_tag ctxSpan "s0" rfl reqMsg infoSample
      handlerBoom [] GoValue.nil "boom" rfl "m" GoValue.nil ccSample invokerBoom
      [] [] GoValue.nil "boom" rfl).2.2.2.1⟩

/-- C3: with a span present and a payload whose dynamic type is not a
proto.Message, the server variant tags grpc.request.size with the int
sentinel -1 where the client variant tags it with the string sentinel
"unknown" (likewise grpc.response.size for a non-proto response after an
error-free call), a warning is logged first, and the handler/invoker is
still invoked with the original context and request: the interceptor's
result is built from the handler's (resp. invoker's) own output. -/
theorem size_tagging_nonproto_sentinels
    (ctx : Context) (sp : Span) (hspan : spanFromContext ctx = some sp)
    (req : GoValue) (hreq : isProtoMessage req = false)
    (resp : GoValue) (hresp : isProtoMessage resp = false)
    (info : UnaryServerInfo) (method : String)
    (handler : UnaryHandler) (hev : List Event) (resp0 : GoValue)
    (err0 : Option GoError)
    (hh : handler ctx req = (hev, resp0, err0))
    (reply : GoValue) (cc : ClientConn) (invoker : UnaryInvoker)
    (opts : List CallOption)
    (iev : List Event) (reply' : GoValue) (cerr : Option GoError)
    (hi : invoker ctx method req reply cc opts = (iev, reply', cerr)) :
    serverRequestTagEvents sp req info
        = [Event.logWarn ("Request for method " ++ info.fullMethod ++
             " is not a proto.Message"),
           Event.setTag sp "grpc.request.size" (TagValue.int (-1))]
    ∧ clientRequestTagEvents sp req method
        = [Event.logWarn ("Request for method " ++ method ++
             " is not a proto.Message"),
           Event.setTag sp "grpc.request.size" (TagValue.str "unknown")]
    ∧ serverResponseTagEvents sp resp info
        = [Event.logWarn ("Response for method " ++ info.fullMethod ++
             " is not a proto.Message"),
           Event.setTag sp "grpc.response.size" (TagValue.int (-1))]
    ∧ clientResponseTagEvents sp resp method
        = [Event.logWarn ("Response for method " ++ method ++
             " is not a proto.Message"),
           Event.setTag sp "grpc.response.size" (TagValue.str "unknown")]
    ∧ SizeTaggingUnaryServerInterceptor ctx req info handler
        = (serverRequestTagEvents sp req info ++ hev ++
            serverPostEvents sp resp0 err0 info, resp0, err0)
    ∧ SizeTaggingUnaryClientInterceptor ctx method req reply cc invoker opts
        = (clientRequestTagEvents sp req method ++ iev ++
            clientPostEvents sp reply' cerr method, reply', cerr) := by
  refine ⟨?_, ?_, ?_, ?_, ?_, ?_⟩
  · cases req <;> simp [isProtoMessage] at hreq ⊢ <;> simp [serverRequestTagEvents]
  · cases req <;> simp [isProtoMessage] at hreq ⊢ <;> simp [clientRequestTagEvents]
  · cases resp <;> simp [isProtoMessage] at hresp ⊢ <;> simp [serverResponseTagEvents]
  · cases resp <;> simp [isProtoMessage] at hresp ⊢ <;> simp [clientResponseTagEvents]
  · exact serverSizeTagging_span_some ctx sp req info handler hev resp0 err0 hspan hh
  · exact clientSizeTagging_span_some ctx sp method req reply cc invoker opts
      iev reply' cerr hspan hi

/-- Witness for C3: a non-proto request and response at concrete inputs. -/
theorem size_tagging_nonproto_sentinels_witness :
    spanFromContext ctxSpan = some "s0"
    ∧ isProtoMessage (GoValue.nonProto 5) = false
    ∧ serverRequestTagEvents "s0" (GoValue.nonProto 5) infoSample
        = [Event.logWarn ("Request for method " ++ infoSample.fullMethod ++
             " is not a proto.Message"),
           Event.setTag "s0" "grpc.request.size" (TagValue.int (-1))]
    ∧ clientRequestTagEvents "s0" (GoValue.nonProto 5) "m"
        = [Event.logWarn "Request for method m is not a proto.Message",
           Event.setTag "s0" "grpc.request.size" (TagValue.str "unknown")] :=
  ⟨rfl, rfl,
   (size_tagging_nonproto_sentinels ctxSpan "s0" rfl (GoValue.nonProto 5) rfl
      (GoValue.nonProto 6) rfl infoSample "m" handlerNilOk [] GoValue.nil none
      rfl GoValue.nil ccSample invokerBoom [] [] GoValue.nil (some "boom")
      rfl).1,
   (size_tagging_nonproto_sentinels ctxSpan "s0" rfl (GoValue.nonProto 5) rfl
      (GoValue.nonProto 6) rfl infoSample "m" handlerNilOk [] GoValue.nil none
      rfl GoValue.nil ccSample invokerBoom [] [] GoValue.nil (some "boom")
      rfl).2.1⟩

/-- C6: with a span present, a request of computed size 42, and the handler
returning a response of computed size 17 with a nil error, the server
size-tagging interceptor emits the grpc.request.size = 42 tag before the
handler's own events and the grpc.response.size = 17 tag after them, and
returns the handler's response and error unchanged. -/
theorem size_tagging_42_17
    (ctx : Context) (sp : Span) (hspan : spanFromContext ctx = some sp)
    (a b : Nat) (info : UnaryServerInfo) (handler : UnaryHandler)
    (hev : List Event)
    (hh : handler ctx (GoValue.protoMsg 42 a) = (hev, GoValue.protoMsg 17 b, none)) :
    SizeTaggingUnaryServerInterceptor ctx (GoValue.protoMsg 42 a) info handler
      = ([Event.setTag sp "grpc.request.size" (TagValue.int 42),
          Event.logInfo ("Request size for " ++ info.fullMethod ++ ": " ++
            toString 42 ++ " bytes")]
         ++ hev ++
         [Event.setTag sp "grpc.response.size" (TagValue.int 17),
          Event.logInfo ("Response size for " ++ info.fullMethod ++ ": " ++
            toString 17 ++ " bytes")],
         GoValue.protoMsg 17 b, none) := by
  rw [serverSizeTagging_span_some ctx sp (GoValue.protoMsg 42 a) info handler hev
    (GoValue.protoMsg 17 b) none hspan hh]
  simp [serverRequestTagEvents, serverPostEvents, serverResponseTagEvents]

/-- Witness for C6 at concrete inputs: the request reqMsg has size 42 and
handlerOk returns respMsg of size 17 with no error. -/
theorem size_tagging_42_17_witness :
    spanFromContext ctxSpan = some "s0"
    ∧ handlerOk ctxSpan (GoValue.protoMsg 42 0)
        = ([Event.logInfo "H"], GoValue.protoMsg 17 1, none)
    ∧ SizeTaggingUnaryServerInterceptor ctxSpan (GoValue.protoMsg 42 0)
        infoSample handlerOk
      = ([Event.setTag "s0" "grpc.request.size" (TagValue.int 42),
          Event.logInfo ("Request size for " ++ infoSample.fullMethod ++ ": " ++
            toString 42 ++ " bytes")]
         ++ [Event.logInfo "H"] ++
         [Event.setTag "s0" "grpc.response.size" (TagValue.int 17),
          Event.logInfo ("Response size for " ++ infoSample.fullMethod ++ ": " ++
            toString 17 ++ " bytes")],
         GoValue.protoMsg 17 1, none) :=
  ⟨rfl, rfl,
   size_tagging_42_17 ctxSpan "s0" rfl 0 1 infoSample handlerOk
     [Event.logInfo "H"] rfl⟩

/-- C7: with no span in the context, the size-tagging interceptors (server
and client variants) add no events at all — no tags, no size-related logging
— and return exactly what the handler (resp. invoker) returns on the
original context and request. -/
theorem size_tagging_no_span
    (ctx : Context) (hspan : spanFromContext ctx = none)
    (req : GoValue) (info : UnaryServerInfo) (handler : UnaryHandler)
    (method : String) (reply : GoValue) (cc : ClientConn)
    (invoker : UnaryInvoker) (opts : List CallOption) :
    SizeTaggingUnaryServerInterceptor ctx req info handler = handler ctx req
    ∧ SizeTaggingUnaryClientInterceptor ctx method req reply cc invoker opts
        = invoker ctx method req reply cc opts :=
  ⟨serverSizeTagging_span_none ctx req info handler hspan,
   clientSizeTagging_span_none ctx method req reply cc invoker opts hspan⟩

/-- Witness for C7 at concrete inputs: the span-free context ctxNoSpan. -/
theorem size_tagging_no_span_witness :
    spanFromContext ctxNoSpan = none
    ∧ SizeTaggingUnaryServerInterceptor ctxNoSpan reqMsg infoSample handlerOk
        = handlerOk ctxNoSpan reqMsg
    ∧ SizeTaggingUnaryClientInterceptor ctxNoSpan "m" reqMsg GoValue.nil
        ccSample invokerOk []
        = invokerOk ctxNoSpan "m" reqMsg GoValue.nil ccSample [] :=
  ⟨rfl,
   (size_tagging_no_span ctxNoSpan rfl reqMsg infoSample handlerOk "m"
      GoValue.nil ccSample invokerOk []).1,
   (size_tagging_no_span ctxNoSpan rfl reqMsg infoSample handlerOk "m"
      GoValue.nil ccSample invokerOk []).2⟩

/-- C9: with a span present and an error-free call whose response (resp.
post-invoke reply slot) is not a proto.Message — including the nil value —
the server variant logs a warning and tags grpc.response.size with the int
sentinel -1, and the client variant logs a warning and tags
grpc.response.size with the string sentinel "unknown". -/
theorem size_tagging_nonproto_response_sentinel
    (ctx : Context) (sp : Span) (hspan : spanFromContext ctx = some sp)
    (req : GoValue) (info : UnaryServerInfo) (handler : UnaryHandler)
    (hev : List Event) (resp : GoValue) (hresp : isProtoMessage resp = false)
    (hh : handler ctx req = (hev, resp, none))
    (method : String) (reply : GoValue) (cc : ClientConn)
    (invoker : UnaryInvoker) (opts : List CallOption)
    (iev : List Event) (reply' : GoValue) (hreply : isProtoMessage reply' = false)
    (hi : invoker ctx method req reply cc opts = (iev, reply', none)) :
    SizeTaggingUnaryServerInterceptor ctx req info handler
      = (serverRequestTagEvents sp req info ++ hev ++
          [Event.logWarn ("Response for method " ++ info.fullMethod ++
             " is not a proto.Message"),
           Event.setTag sp "grpc.response.size" (TagValue.int (-1))],
         resp, none)
    ∧ SizeTaggingUnaryClientInterceptor ctx method req reply cc invoker opts
      = (clientRequestTagEvents sp req method ++ iev ++
          [Event.logWarn ("Response for method " ++ method ++
             " is not a proto.Message"),
           Event.setTag sp "grpc.response.size" (TagValue.str "unknown")],
         reply', none) := by
  constructor
  · rw [serverSizeTagging_span_some ctx sp req info handler hev resp none hspan hh]
    cases resp <;> simp [isProtoMessage] at hresp ⊢ <;>
      simp [serverPostEvents, serverResponseTagEvents]
  · rw [clientSizeTagging_span_some ctx sp method req reply cc invoker opts iev
      reply' none hspan hi]
    cases reply' <;> simp [isProtoMessage] at hreply ⊢ <;>
      simp [clientPostEvents, clientResponseTagEvents]

/-- Witness for C9 at concrete inputs: an error-free handler returning the
nil response and an error-free invoker leaving a non-proto reply. -/
theorem size_tagging_nonproto_response_sentinel_witness :
    spanFromContext ctxSpan = some "s0"
    ∧ handlerNilOk ctxSpan reqMsg = ([], GoValue.nil, none)
    ∧ isProtoMessage GoValue.nil = false
    ∧ invokerNonProtoOk ctxSpan "m" reqMsg GoValue.nil ccSample []
        = ([], GoValue.nonProto 3, none)
    ∧ SizeTaggingUnaryServerInterceptor ctxSpan reqMsg infoSample handlerNilOk
        = (serverRequestTagEvents "s0" reqMsg infoSample ++ [] ++
            [Event.logWarn ("Response for method " ++ infoSample.fullMethod ++
               " is not a proto.Message"),
             Event.setTag "s0" "grpc.response.size" (TagValue.int (-1))],
           GoValue.nil, none)
    ∧ SizeTaggingUnaryClientInterceptor ctxSpan "m" reqMsg GoValue.nil ccSample
        invokerNonProtoOk []
        = (clientRequestTagEvents "s0" reqMsg "m" ++ [] ++
            [Event.logWarn "Response for method m is not a proto.Message",
             Event.setTag "s0" "grpc.response.size" (TagValue.str "unknown")],
           GoValue.nonProto 3, none) :=
  ⟨rfl, rfl, rfl, rfl,
   (size_tagging_nonproto_response_sentinel ctxSpan "s0" rfl reqMsg infoSample
      handlerNilOk [] GoValue.nil rfl rfl "m" GoValue.nil ccSample
      invokerNonProtoOk [] [] (GoValue.nonProto 3) rfl rfl).1,
   (size_tagging_nonproto_response_sentinel ctxSpan "s0" rfl reqMsg infoSample
      handlerNilOk [] GoValue.nil rfl rfl "m" GoValue.nil ccSample
      invokerNonProtoOk [] [] (GoValue.nonProto 3) rfl rfl).2⟩

end Tracing
